import Mathlib

/-!
Shallow embedding of the media-player controller logic of the repository
(src/src/components/MediaControls.vue and src/src/components/MpvPlayer.vue).

JS numbers are modelled as rationals (`ℚ`); the asynchronous Tauri `invoke`
boundary is modelled as an oracle (`Engine`) mapping each command to either a
success payload or an error message.  Each handler is translated as a pure
function from the component's reactive state to the new state, together with
the list of bridge calls it issued (in issue order) and the status events it
emitted, so that dispatch counts and ordering are provable.
-/

namespace MediaPlayer

/-- The `videoArea` payload computed in MpvPlayer.vue from the container's
bounding rectangle: `{x, y, width, height}`, already rounded to integers. -/
structure VideoArea where
  x : ℤ
  y : ℤ
  width : ℤ
  height : ℤ
deriving DecidableEq, Repr

/-- The commands sent over the Tauri bridge by the two components, with their
argument payloads. -/
inductive BridgeCall where
  | play_pause : BridgeCall
  | stop_video : BridgeCall
  | speed_preset : ℚ → BridgeCall
  | set_playback_speed : ℚ → BridgeCall
  | get_playback_speed : BridgeCall
  | init_mpv_player : BridgeCall
  | load_video : String → BridgeCall
  | setup_video_rendering : VideoArea → BridgeCall
deriving DecidableEq, Repr

/-- A status emission `(type, message)`, as passed to `emitStatus` /
`updateStatus` in the source (`type` is one of "info", "success", "warning",
"error"). -/
structure StatusEvent where
  type : String
  message : String
deriving DecidableEq, Repr

/-- The engine boundary: `invoke` answers every string-valued command with a
confirmation string or fails with an error message; `invokeSpeed` answers the
numeric `get_playback_speed` query. -/
structure Engine where
  invoke : BridgeCall → Except String String
  invokeSpeed : Except String ℚ

/-- The reactive state of MediaControls.vue: `isPlaying`, `currentSpeed`,
`customSpeed` (initial values `false`, `1.0`, `1.0`). -/
structure ControlsState where
  isPlaying : Bool
  currentSpeed : ℚ
  customSpeed : ℚ
deriving DecidableEq, Repr

/-- Initial reactive state of MediaControls.vue. -/
def initControls : ControlsState := ⟨false, 1, 1⟩

/-- The fixed preset list `speedPresets` of MediaControls.vue. -/
def speedPresets : List ℚ := [1/4, 1/2, 3/4, 1, 5/4, 3/2, 2]

/-- Result of running one MediaControls handler: new state, bridge calls made
(in order), status events emitted (in order). -/
def ControlsOut := ControlsState × List BridgeCall × List StatusEvent

/-- `togglePlayPause` from MediaControls.vue: unconditionally invokes
`play_pause`; on success flips `isPlaying` and emits an info status; on
failure leaves state unchanged and emits an error status. -/
def togglePlayPause (engine : Engine) (s : ControlsState) : ControlsOut :=
  match engine.invoke BridgeCall.play_pause with
  | Except.ok result =>
      ({ s with isPlaying := !s.isPlaying },
       [BridgeCall.play_pause],
       [⟨"info", result⟩])
  | Except.error e =>
      (s, [BridgeCall.play_pause],
       [⟨"error", "Failed to toggle playback: " ++ e⟩])

/-- `stopVideo` from MediaControls.vue. -/
def stopVideo (engine : Engine) (s : ControlsState) : ControlsOut :=
  match engine.invoke BridgeCall.stop_video with
  | Except.ok result =>
      ({ s with isPlaying := false },
       [BridgeCall.stop_video],
       [⟨"info", result⟩])
  | Except.error e =>
      (s, [BridgeCall.stop_video],
       [⟨"error", "Failed to stop video: " ++ e⟩])

/-- `setSpeedPreset(speed)` from MediaControls.vue: invokes `speed_preset`; on
success stores `speed` into both `currentSpeed` and `customSpeed`. -/
def setSpeedPreset (engine : Engine) (speed : ℚ) (s : ControlsState) :
    ControlsOut :=
  match engine.invoke (BridgeCall.speed_preset speed) with
  | Except.ok _ =>
      ({ s with currentSpeed := speed, customSpeed := speed },
       [BridgeCall.speed_preset speed],
       [⟨"success", "Speed set to " ++ toString speed ++ "x"⟩])
  | Except.error e =>
      (s, [BridgeCall.speed_preset speed],
       [⟨"error", "Failed to set speed: " ++ e⟩])

/-- `setCustomSpeed` from MediaControls.vue: rejects with a warning status and
no dispatch when `customSpeed` is falsy (0) or outside `[0.1, 4.0]`;
otherwise invokes `set_playback_speed` and, on success, copies `customSpeed`
into `currentSpeed`. -/
def setCustomSpeed (engine : Engine) (s : ControlsState) : ControlsOut :=
  if s.customSpeed = 0 ∨ s.customSpeed < 1/10 ∨ 4 < s.customSpeed then
    (s, [], [⟨"warning", "Speed must be between 0.1x and 4.0x"⟩])
  else
    match engine.invoke (BridgeCall.set_playback_speed s.customSpeed) with
    | Except.ok _ =>
        ({ s with currentSpeed := s.customSpeed },
         [BridgeCall.set_playback_speed s.customSpeed],
         [⟨"success", "Speed set to " ++ toString s.customSpeed ++ "x"⟩])
    | Except.error e =>
        (s, [BridgeCall.set_playback_speed s.customSpeed],
         [⟨"error", "Failed to set speed: " ++ e⟩])

/-- `adjustSpeed(adjustment)` from MediaControls.vue: writes the clamped value
`max(0.1, min(4.0, currentSpeed + adjustment))` into `customSpeed` and then
runs `setCustomSpeed`. -/
def adjustSpeed (engine : Engine) (adjustment : ℚ) (s : ControlsState) :
    ControlsOut :=
  let newSpeed := max (1/10) (min 4 (s.currentSpeed + adjustment))
  setCustomSpeed engine { s with customSpeed := newSpeed }

/-- `resetSpeed` from MediaControls.vue: writes `1.0` into `customSpeed`, then
runs `setCustomSpeed`. -/
def resetSpeed (engine : Engine) (s : ControlsState) : ControlsOut :=
  setCustomSpeed engine { s with customSpeed := 1 }

/-- `getCurrentSpeed` from MediaControls.vue: returns immediately when the
`isInitialized` prop is false; otherwise queries `get_playback_speed` and, on
success, overwrites both `currentSpeed` and `customSpeed` with the engine's
reported value. -/
def getCurrentSpeed (engine : Engine) (isInitialized : Bool)
    (s : ControlsState) : ControlsOut :=
  if !isInitialized then (s, [], [])
  else
    match engine.invokeSpeed with
    | Except.ok speed =>
        ({ s with currentSpeed := speed, customSpeed := speed },
         [BridgeCall.get_playback_speed], [])
    | Except.error e =>
        (s, [BridgeCall.get_playback_speed],
         [⟨"error", "Failed to get current speed: " ++ e⟩])

/-- The reactive state of MpvPlayer.vue relevant to the claims: the
`isInitialized` and `videoLoaded` flags, the `videoPath` field, the mounted
video container (its rounded bounding rectangle, `none` before mount), and the
latest status. -/
structure MpvState where
  isInitialized : Bool
  videoLoaded : Bool
  videoPath : String
  videoContainer : Option VideoArea
  status : StatusEvent
deriving DecidableEq, Repr

/-- `setupVideoRendering` from MpvPlayer.vue: throws when the container ref is
null; otherwise reads the container rectangle and invokes
`setup_video_rendering` with it — unconditionally, with no memoisation of the
previous region and no check on width or height.  On success it records an
info status; on failure it rethrows.  The returned list holds the bridge
calls that were issued. -/
def setupVideoRendering (engine : Engine) (s : MpvState) :
    List BridgeCall × Except String MpvState :=
  match s.videoContainer with
  | none => ([], Except.error "Video container not found")
  | some rect =>
    match engine.invoke (BridgeCall.setup_video_rendering rect) with
    | Except.ok result =>
        ([BridgeCall.setup_video_rendering rect],
         Except.ok { s with status := ⟨"info", result⟩ })
    | Except.error e =>
        ([BridgeCall.setup_video_rendering rect],
         Except.error ("Failed to setup video rendering: " ++ e))

/-- `loadVideo` from MpvPlayer.vue: rejects an empty path with a warning and
no dispatch; otherwise first awaits `setupVideoRendering`, then invokes
`load_video` with the path.  Any failure is caught, setting an error status
and clearing `videoLoaded`. -/
def loadVideo (engine : Engine) (s : MpvState) : MpvState × List BridgeCall :=
  if s.videoPath = "" then
    ({ s with status := ⟨"warning", "Please enter a video file path"⟩ }, [])
  else
    match setupVideoRendering engine s with
    | (calls, Except.error e) =>
        ({ s with status := ⟨"error", "Failed to load video: " ++ e⟩,
                  videoLoaded := false }, calls)
    | (calls, Except.ok s1) =>
        match engine.invoke (BridgeCall.load_video s.videoPath) with
        | Except.ok result =>
            ({ s1 with status := ⟨"success", result⟩, videoLoaded := true },
             calls ++ [BridgeCall.load_video s.videoPath])
        | Except.error e =>
            ({ s1 with status := ⟨"error", "Failed to load video: " ++ e⟩,
                       videoLoaded := false },
             calls ++ [BridgeCall.load_video s.videoPath])

/-- Two successive `setupVideoRendering` calls with unchanged geometry (the
layout-pass scenario of the spec): the calls issued by running it once and,
if it succeeded, running it again on the resulting state. -/
def configureTwice (engine : Engine) (s : MpvState) : List BridgeCall :=
  match setupVideoRendering engine s with
  | (calls1, Except.ok s1) => calls1 ++ (setupVideoRendering engine s1).1
  | (calls1, Except.error _) => calls1

/-- An engine that accepts every command. -/
def okEngine : Engine :=
  ⟨fun _ => Except.ok "ok", Except.ok 1⟩

/-- An engine that fails every command. -/
def failEngine : Engine :=
  ⟨fun _ => Except.error "boom", Except.error "boom"⟩

/-- A mounted MpvPlayer state with the engine initialised but no media loaded
yet: the container measures 800×400 at the origin. -/
def mountedState : MpvState :=
  ⟨true, false, "", some ⟨0, 0, 800, 400⟩,
   ⟨"info", "Ready to initialize MPV player"⟩⟩

/-- A mounted MpvPlayer state whose container has zero width (the "not yet
laid out" geometry of the spec's withholding scenario). -/
def zeroWidthState : MpvState :=
  ⟨true, false, "", some ⟨0, 0, 0, 400⟩, ⟨"info", "ready"⟩⟩

/-- A mounted MpvPlayer state with a non-empty path typed in, ready for
`loadVideo`. -/
def loadState : MpvState :=
  ⟨true, false, "/a.mp4", some ⟨0, 0, 800, 400⟩, ⟨"info", "ready"⟩⟩

/-- The guard of `setCustomSpeed` is exactly the complement of the inclusive
range `[0.1, 4.0]` (the falsy-zero disjunct is subsumed by `v < 0.1`). -/
lemma setCustomSpeed_guard_iff (v : ℚ) :
    (v = 0 ∨ v < 1/10 ∨ 4 < v) ↔ ¬(1/10 ≤ v ∧ v ≤ 4) := by
  constructor
  · rintro (h0 | hlt | hgt) ⟨h1, h2⟩
    · rw [h0] at h1; norm_num at h1
    · exact absurd h1 (not_le.mpr hlt)
    · exact absurd h2 (not_le.mpr hgt)
  · intro h
    rcases not_and_or.mp h with h1 | h2
    · exact Or.inr (Or.inl (not_le.mp h1))
    · exact Or.inr (Or.inr (not_le.mp h2))

/-- Evaluation of `setCustomSpeed` when the pending value is in range and the
engine confirms. -/
lemma setCustomSpeed_ok_eq (engine : Engine) (s : ControlsState) (r : String)
    (h1 : 1/10 ≤ s.customSpeed) (h2 : s.customSpeed ≤ 4)
    (hok : engine.invoke (BridgeCall.set_playback_speed s.customSpeed) =
      Except.ok r) :
    setCustomSpeed engine s =
      ({ s with currentSpeed := s.customSpeed },
       [BridgeCall.set_playback_speed s.customSpeed],
       [⟨"success", "Speed set to " ++ toString s.customSpeed ++ "x"⟩]) := by
  unfold setCustomSpeed
  rw [if_neg (fun hg => (setCustomSpeed_guard_iff s.customSpeed).mp hg ⟨h1, h2⟩),
    hok]

/-- Evaluation of `setCustomSpeed` when the pending value is in range and the
engine fails. -/
lemma setCustomSpeed_err_eq (engine : Engine) (s : ControlsState) (e : String)
    (h1 : 1/10 ≤ s.customSpeed) (h2 : s.customSpeed ≤ 4)
    (hfail : engine.invoke (BridgeCall.set_playback_speed s.customSpeed) =
      Except.error e) :
    setCustomSpeed engine s =
      (s, [BridgeCall.set_playback_speed s.customSpeed],
       [⟨"error", "Failed to set speed: " ++ e⟩]) := by
  unfold setCustomSpeed
  rw [if_neg (fun hg => (setCustomSpeed_guard_iff s.customSpeed).mp hg ⟨h1, h2⟩),
    hfail]

/-- Evaluation of `setCustomSpeed` when the pending value is out of range. -/
lemma setCustomSpeed_out_eq (engine : Engine) (s : ControlsState)
    (h : ¬(1/10 ≤ s.customSpeed ∧ s.customSpeed ≤ 4)) :
    setCustomSpeed engine s =
      (s, [], [⟨"warning", "Speed must be between 0.1x and 4.0x"⟩]) := by
  unfold setCustomSpeed
  rw [if_pos ((setCustomSpeed_guard_iff s.customSpeed).mpr h)]

/-- The clamped value computed by `adjustSpeed` is always in `[0.1, 4.0]`. -/
lemma clamp_mem (c delta : ℚ) :
    1/10 ≤ max (1/10) (min 4 (c + delta)) ∧
      max (1/10) (min 4 (c + delta)) ≤ 4 :=
  ⟨le_max_left _ _, max_le (by norm_num) (min_le_left _ _)⟩

/-- Evaluation of `setupVideoRendering` when the container is mounted and the
engine accepts the region. -/
lemma setupVideoRendering_ok_eq (engine : Engine) (s : MpvState)
    (rect : VideoArea) (r : String)
    (hc : s.videoContainer = some rect)
    (hok : engine.invoke (BridgeCall.setup_video_rendering rect) =
      Except.ok r) :
    setupVideoRendering engine s =
      ([BridgeCall.setup_video_rendering rect],
       Except.ok { s with status := ⟨"info", r⟩ }) := by
  unfold setupVideoRendering
  rw [hc]
  simp [hok]

/-- Evaluation of `setupVideoRendering` when the container is mounted and the
engine rejects the region. -/
lemma setupVideoRendering_err_eq (engine : Engine) (s : MpvState)
    (rect : VideoArea) (e : String)
    (hc : s.videoContainer = some rect)
    (hfail : engine.invoke (BridgeCall.setup_video_rendering rect) =
      Except.error e) :
    setupVideoRendering engine s =
      ([BridgeCall.setup_video_rendering rect],
       Except.error ("Failed to setup video rendering: " ++ e)) := by
  unfold setupVideoRendering
  rw [hc]
  simp [hfail]

/-- C1 counterexample: with no media loaded (the fresh `mountedState` has
`videoLoaded = false` and `togglePlayPause` reads no load state at all),
`togglePlayPause` dispatches one `play_pause` bridge call — not zero — and
emits no validation warning, refuting the claim that the intent is rejected
synchronously with zero bridge calls. -/
theorem togglePlayPause_unloaded_cex :
    mountedState.videoLoaded = false ∧
    (togglePlayPause okEngine initControls).2.1 = [BridgeCall.play_pause] ∧
    (togglePlayPause okEngine initControls).2.1 ≠ ([] : List BridgeCall) ∧
    (togglePlayPause okEngine initControls).2.2 =
      [⟨"info", "ok"⟩] := by
  refine ⟨rfl, rfl, ?_, rfl⟩
  decide

/-- C1 amended: `togglePlayPause` performs no local precondition check — from
every state, loaded or not, it dispatches exactly one `play_pause` command to
the bridge; a precondition failure can only surface as an engine error. -/
theorem togglePlayPause_always_dispatches (engine : Engine)
    (s : ControlsState) :
    (togglePlayPause engine s).2.1 = [BridgeCall.play_pause] := by
  unfold togglePlayPause
  cases engine.invoke BridgeCall.play_pause <;> rfl

/-- C2: `setCustomSpeed` dispatches `set_playback_speed` to the engine iff the
pending value lies in `[0.1, 4.0]`; otherwise it dispatches nothing and
reports a warning-severity validation status. -/
theorem setCustomSpeed_range_gate (engine : Engine) (s : ControlsState) :
    ((setCustomSpeed engine s).2.1 =
        [BridgeCall.set_playback_speed s.customSpeed] ↔
      1/10 ≤ s.customSpeed ∧ s.customSpeed ≤ 4) ∧
    (¬(1/10 ≤ s.customSpeed ∧ s.customSpeed ≤ 4) →
      (setCustomSpeed engine s).2.1 = [] ∧
      (setCustomSpeed engine s).2.2 =
        [⟨"warning", "Speed must be between 0.1x and 4.0x"⟩]) := by
  by_cases h : 1/10 ≤ s.customSpeed ∧ s.customSpeed ≤ 4
  · refine ⟨?_, fun hn => absurd h hn⟩
    cases hinv : engine.invoke (BridgeCall.set_playback_speed s.customSpeed)
      with
    | error e =>
        rw [setCustomSpeed_err_eq engine s e h.1 h.2 hinv]
        exact iff_of_true rfl h
    | ok r =>
        rw [setCustomSpeed_ok_eq engine s r h.1 h.2 hinv]
        exact iff_of_true rfl h
  · rw [setCustomSpeed_out_eq engine s h]
    exact ⟨iff_of_false (by simp) h, fun _ => ⟨rfl, rfl⟩⟩

/-- C2 witness: at the out-of-range pending value `5`, no dispatch occurs and
a warning is reported. -/
theorem setCustomSpeed_range_gate_witness :
    (setCustomSpeed okEngine ⟨false, 1, 5⟩).2.1 = [] ∧
    (setCustomSpeed okEngine ⟨false, 1, 5⟩).2.2 =
      [⟨"warning", "Speed must be between 0.1x and 4.0x"⟩] :=
  (setCustomSpeed_range_gate okEngine ⟨false, 1, 5⟩).2 (by norm_num)

/-- C3: for a current speed in `[0.1, 4.0]` and any delta, `adjustSpeed`
forwards exactly the clamped value `max(0.1, min(4.0, current + delta))` to
`setCustomSpeed`, and that value lies in `[0.1, 4.0]`. -/
theorem adjustSpeed_clamps (engine : Engine) (delta : ℚ) (s : ControlsState)
    (h1 : 1/10 ≤ s.currentSpeed) (h2 : s.currentSpeed ≤ 4) :
    adjustSpeed engine delta s =
      setCustomSpeed engine
        { s with customSpeed := max (1/10) (min 4 (s.currentSpeed + delta)) } ∧
    1/10 ≤ max (1/10) (min 4 (s.currentSpeed + delta)) ∧
    max (1/10) (min 4 (s.currentSpeed + delta)) ≤ 4 :=
  ⟨rfl, clamp_mem s.currentSpeed delta⟩

/-- C3 witness: at current speed `1` and delta `100`, the forwarded value is
the clamp and stays within bounds. -/
theorem adjustSpeed_clamps_witness :
    adjustSpeed okEngine 100 initControls =
      setCustomSpeed okEngine
        { initControls with
            customSpeed :=
              max (1/10) (min 4 (initControls.currentSpeed + 100)) } ∧
    1/10 ≤ max (1/10) (min 4 (initControls.currentSpeed + 100)) ∧
    max (1/10) (min 4 (initControls.currentSpeed + 100)) ≤ 4 :=
  adjustSpeed_clamps okEngine 100 initControls (by norm_num [initControls])
    (by norm_num [initControls])

/-- C4 counterexample: two successive `setupVideoRendering` calls with an
identical container region dispatch two `setup_video_rendering` commands, not
one, refuting the claimed idempotence. -/
theorem configure_idempotence_cex :
    configureTwice okEngine mountedState =
      [BridgeCall.setup_video_rendering ⟨0, 0, 800, 400⟩,
       BridgeCall.setup_video_rendering ⟨0, 0, 800, 400⟩] ∧
    (configureTwice okEngine mountedState).length ≠ 1 := by
  refine ⟨rfl, ?_⟩
  decide

/-- C4 amended: `setupVideoRendering` keeps no record of the previously
configured region — every call dispatches, so two calls with an identical
region dispatch exactly twice. -/
theorem configure_twice_dispatches_twice (engine : Engine) (s : MpvState)
    (rect : VideoArea) (r : String)
    (hc : s.videoContainer = some rect)
    (hok : engine.invoke (BridgeCall.setup_video_rendering rect) =
      Except.ok r) :
    configureTwice engine s =
      [BridgeCall.setup_video_rendering rect,
       BridgeCall.setup_video_rendering rect] := by
  unfold configureTwice
  rw [setupVideoRendering_ok_eq engine s rect r hc hok]
  simp [setupVideoRendering_ok_eq engine { s with status := ⟨"info", r⟩ }
    rect r hc hok]

/-- C4 witness: at the mounted 800×400 container with an accepting engine,
the second identical configure call dispatches again. -/
theorem configure_twice_dispatches_twice_witness :
    configureTwice okEngine mountedState =
      [BridgeCall.setup_video_rendering ⟨0, 0, 800, 400⟩,
       BridgeCall.setup_video_rendering ⟨0, 0, 800, 400⟩] :=
  configure_twice_dispatches_twice okEngine mountedState
    ⟨0, 0, 800, 400⟩ "ok" rfl rfl

/-- C5 counterexample: a region of zero width is not withheld —
`setupVideoRendering` dispatches it to the engine, refuting the claim that
only positive-area regions are ever dispatched. -/
theorem configure_zero_area_cex :
    zeroWidthState.videoContainer = some ⟨0, 0, 0, 400⟩ ∧
    (setupVideoRendering okEngine zeroWidthState).1 =
      [BridgeCall.setup_video_rendering ⟨0, 0, 0, 400⟩] ∧
    (setupVideoRendering okEngine zeroWidthState).1 ≠
      ([] : List BridgeCall) := by
  refine ⟨rfl, rfl, ?_⟩
  decide

/-- C5 amended: `setupVideoRendering` performs no width/height check — for
every known container region, zero-area included, it dispatches exactly that
region; zero-area rejection is left to the engine. -/
theorem configure_dispatches_any_region (engine : Engine) (s : MpvState)
    (rect : VideoArea) (hc : s.videoContainer = some rect) :
    (setupVideoRendering engine s).1 =
      [BridgeCall.setup_video_rendering rect] := by
  cases hinv : engine.invoke (BridgeCall.setup_video_rendering rect) with
  | error e => rw [setupVideoRendering_err_eq engine s rect e hc hinv]
  | ok r => rw [setupVideoRendering_ok_eq engine s rect r hc hinv]

/-- C5 witness: the zero-width region is dispatched. -/
theorem configure_dispatches_any_region_witness :
    (setupVideoRendering okEngine zeroWidthState).1 =
      [BridgeCall.setup_video_rendering ⟨0, 0, 0, 400⟩] :=
  configure_dispatches_any_region okEngine zeroWidthState
    ⟨0, 0, 0, 400⟩ rfl

/-- C6 counterexample: with a non-empty path and a known region, `loadVideo`
issues `setup_video_rendering` first and `load_video` second, so its first
bridge call is not the load command — refuting the claimed
load-then-configure order. -/
theorem load_order_cex :
    (loadVideo okEngine loadState).2 =
      [BridgeCall.setup_video_rendering ⟨0, 0, 800, 400⟩,
       BridgeCall.load_video "/a.mp4"] ∧
    (loadVideo okEngine loadState).2.head? ≠
      some (BridgeCall.load_video "/a.mp4") := by
  refine ⟨rfl, ?_⟩
  decide

/-- C6 amended: for every non-empty path with a known region whose
configuration the engine accepts, `loadVideo` first dispatches
`setup_video_rendering` and only then dispatches `load_video`. -/
theorem loadVideo_setup_then_load (engine : Engine) (s : MpvState)
    (rect : VideoArea) (r : String)
    (hpath : ¬s.videoPath = "")
    (hc : s.videoContainer = some rect)
    (hok : engine.invoke (BridgeCall.setup_video_rendering rect) =
      Except.ok r) :
    (loadVideo engine s).2 =
      [BridgeCall.setup_video_rendering rect,
       BridgeCall.load_video s.videoPath] := by
  unfold loadVideo
  rw [if_neg hpath, setupVideoRendering_ok_eq engine s rect r hc hok]
  cases hl : engine.invoke (BridgeCall.load_video s.videoPath) <;> simp [hl]

/-- C6 witness: loading "/a.mp4" from the mounted 800×400 container issues
configuration first, then the load. -/
theorem loadVideo_setup_then_load_witness :
    (loadVideo okEngine loadState).2 =
      [BridgeCall.setup_video_rendering ⟨0, 0, 800, 400⟩,
       BridgeCall.load_video "/a.mp4"] :=
  loadVideo_setup_then_load okEngine loadState ⟨0, 0, 800, 400⟩ "ok"
    (by decide) rfl rfl

/-- C7 counterexample: starting from `currentSpeed = customSpeed = 1`, a
failed `adjustSpeed (1/4)` leaves `customSpeed` at the new clamped value
`5/4`, not at its pre-operation value `1` — `adjustSpeed` writes the pending
value before dispatching, refuting the claim that every locally stored speed
value is unchanged on a failed dispatch. -/
theorem speed_failure_cex :
    (adjustSpeed failEngine (1/4) initControls).1.customSpeed ≠
      initControls.customSpeed ∧
    (adjustSpeed failEngine (1/4) initControls).1.currentSpeed =
      initControls.currentSpeed := by
  have h := setCustomSpeed_err_eq failEngine
    { initControls with
        customSpeed :=
          max (1/10) (min 4 (initControls.currentSpeed + 1/4)) }
    "boom" (clamp_mem _ _).1 (clamp_mem _ _).2 rfl
  unfold adjustSpeed
  rw [h]
  constructor
  · show max (1/10 : ℚ) (min 4 (initControls.currentSpeed + 1/4)) ≠
      initControls.customSpeed
    norm_num [initControls, min_def, max_def]
  · rfl

/-- C7 amended: on a failed dispatch `currentSpeed` keeps its previous value
and an error is reported, but `adjustSpeed` has already written the clamped
value into the pending `customSpeed` before dispatching, and that write is
not reverted on failure. -/
theorem speed_failure_semantics (engine : Engine) (delta : ℚ)
    (s : ControlsState) (e : String)
    (hfail : engine.invoke (BridgeCall.set_playback_speed
        (max (1/10) (min 4 (s.currentSpeed + delta)))) = Except.error e) :
    (adjustSpeed engine delta s).1.currentSpeed = s.currentSpeed ∧
    (adjustSpeed engine delta s).1.customSpeed =
      max (1/10) (min 4 (s.currentSpeed + delta)) ∧
    (adjustSpeed engine delta s).2.2 =
      [⟨"error", "Failed to set speed: " ++ e⟩] := by
  have h := setCustomSpeed_err_eq engine
    { s with customSpeed := max (1/10) (min 4 (s.currentSpeed + delta)) } e
    (clamp_mem s.currentSpeed delta).1 (clamp_mem s.currentSpeed delta).2
    hfail
  unfold adjustSpeed
  rw [h]
  exact ⟨rfl, rfl, rfl⟩

/-- C7 witness: with the failing engine at delta `1/4` from speed `1`,
`currentSpeed` stays `1`, `customSpeed` is the clamped `5/4`, and an error is
reported. -/
theorem speed_failure_semantics_witness :
    (adjustSpeed failEngine (1/4) initControls).1.currentSpeed =
      initControls.currentSpeed ∧
    (adjustSpeed failEngine (1/4) initControls).1.customSpeed =
      max (1/10) (min 4 (initControls.currentSpeed + 1/4)) ∧
    (adjustSpeed failEngine (1/4) initControls).2.2 =
      [⟨"error", "Failed to set speed: " ++ "boom"⟩] :=
  speed_failure_semantics failEngine (1/4) initControls "boom" rfl

/-- C8: `togglePlayPause` flips `isPlaying` exactly when the engine responds
with success; on an engine failure the flag is unchanged and an
error-severity status carrying the engine message is reported. -/
theorem togglePlayPause_flip_semantics (engine : Engine)
    (s : ControlsState) :
    (∀ r, engine.invoke BridgeCall.play_pause = Except.ok r →
      (togglePlayPause engine s).1.isPlaying = !s.isPlaying) ∧
    (∀ e, engine.invoke BridgeCall.play_pause = Except.error e →
      (togglePlayPause engine s).1.isPlaying = s.isPlaying ∧
      (togglePlayPause engine s).2.2 =
        [⟨"error", "Failed to toggle playback: " ++ e⟩]) := by
  constructor
  · intro r h
    unfold togglePlayPause
    rw [h]
  · intro e h
    unfold togglePlayPause
    rw [h]
    exact ⟨rfl, rfl⟩

/-- C8 witness: with the accepting engine the flag flips from `false` to
`true`; with the failing engine it stays `false`. -/
theorem togglePlayPause_flip_semantics_witness :
    (togglePlayPause okEngine initControls).1.isPlaying =
      !initControls.isPlaying ∧
    (togglePlayPause failEngine initControls).1.isPlaying =
      initControls.isPlaying :=
  ⟨(togglePlayPause_flip_semantics okEngine initControls).1 "ok" rfl,
   ((togglePlayPause_flip_semantics failEngine initControls).2 "boom"
     rfl).1⟩

/-- C9: whatever values are cached locally, a successful `getCurrentSpeed`
overwrites both `currentSpeed` and `customSpeed` with the engine's reported
rate — the engine value wins, with no merging. -/
theorem getCurrentSpeed_engine_wins (engine : Engine) (s : ControlsState)
    (r : ℚ) (hok : engine.invokeSpeed = Except.ok r) :
    (getCurrentSpeed engine true s).1.currentSpeed = r ∧
    (getCurrentSpeed engine true s).1.customSpeed = r := by
  unfold getCurrentSpeed
  rw [hok]
  exact ⟨rfl, rfl⟩

/-- C9 witness: the spec scenario — local rate cached at `2`, engine reports
`1`, the local values become `1`. -/
theorem getCurrentSpeed_engine_wins_witness :
    (getCurrentSpeed okEngine true ⟨false, 2, 2⟩).1.currentSpeed = 1 ∧
    (getCurrentSpeed okEngine true ⟨false, 2, 2⟩).1.customSpeed = 1 :=
  getCurrentSpeed_engine_wins okEngine ⟨false, 2, 2⟩ 1 rfl

/-- C10: every speed operation that completes successfully — `setSpeedPreset`,
an in-range `setCustomSpeed`, `adjustSpeed`, `resetSpeed`, or
`getCurrentSpeed` — leaves the displayed `currentSpeed` equal to the pending
`customSpeed`. -/
theorem speed_ops_restore_sync (engine : Engine) (s : ControlsState) :
    (∀ v r, engine.invoke (BridgeCall.speed_preset v) = Except.ok r →
      (setSpeedPreset engine v s).1.currentSpeed =
        (setSpeedPreset engine v s).1.customSpeed) ∧
    (∀ r, 1/10 ≤ s.customSpeed → s.customSpeed ≤ 4 →
      engine.invoke (BridgeCall.set_playback_speed s.customSpeed) =
        Except.ok r →
      (setCustomSpeed engine s).1.currentSpeed =
        (setCustomSpeed engine s).1.customSpeed) ∧
    (∀ d r, engine.invoke (BridgeCall.set_playback_speed
        (max (1/10) (min 4 (s.currentSpeed + d)))) = Except.ok r →
      (adjustSpeed engine d s).1.currentSpeed =
        (adjustSpeed engine d s).1.customSpeed) ∧
    (∀ r, engine.invoke (BridgeCall.set_playback_speed 1) = Except.ok r →
      (resetSpeed engine s).1.currentSpeed =
        (resetSpeed engine s).1.customSpeed) ∧
    (∀ r, engine.invokeSpeed = Except.ok r →
      (getCurrentSpeed engine true s).1.currentSpeed =
        (getCurrentSpeed engine true s).1.customSpeed) := by
  refine ⟨?_, ?_, ?_, ?_, ?_⟩
  · intro v r h
    unfold setSpeedPreset
    rw [h]
  · intro r h1 h2 h
    rw [setCustomSpeed_ok_eq engine s r h1 h2 h]
  · intro d r h
    unfold adjustSpeed
    rw [setCustomSpeed_ok_eq engine
      { s with customSpeed := max (1/10) (min 4 (s.currentSpeed + d)) } r
      (clamp_mem s.currentSpeed d).1 (clamp_mem s.currentSpeed d).2 h]
  · intro r h
    unfold resetSpeed
    rw [setCustomSpeed_ok_eq engine { s with customSpeed := 1 } r
      (by norm_num) (by norm_num) h]
  · intro r h
    unfold getCurrentSpeed
    rw [h]
    rfl

/-- C10 witness: with the accepting engine, each of the five operations run
from the initial state re-establishes `currentSpeed = customSpeed`. -/
theorem speed_ops_restore_sync_witness :
    ((setSpeedPreset okEngine 2 initControls).1.currentSpeed =
      (setSpeedPreset okEngine 2 initControls).1.customSpeed) ∧
    ((setCustomSpeed okEngine initControls).1.currentSpeed =
      (setCustomSpeed okEngine initControls).1.customSpeed) ∧
    ((adjustSpeed okEngine (1/4) initControls).1.currentSpeed =
      (adjustSpeed okEngine (1/4) initControls).1.customSpeed) ∧
    ((resetSpeed okEngine initControls).1.currentSpeed =
      (resetSpeed okEngine initControls).1.customSpeed) ∧
    ((getCurrentSpeed okEngine true initControls).1.currentSpeed =
      (getCurrentSpeed okEngine true initControls).1.customSpeed) :=
  ⟨(speed_ops_restore_sync okEngine initControls).1 2 "ok" rfl,
   (speed_ops_restore_sync okEngine initControls).2.1 "ok"
     (by norm_num [initControls]) (by norm_num [initControls]) rfl,
   (speed_ops_restore_sync okEngine initControls).2.2.1 (1/4) "ok" rfl,
   (speed_ops_restore_sync okEngine initControls).2.2.2.1 "ok" rfl,
   (speed_ops_restore_sync okEngine initControls).2.2.2.2 1 rfl⟩

end MediaPlayer
